import Mathlib

/-!
Verification of the `sample-community` backend plugin
(`src/backend/plugin.js` of EnigmaSampleCommunityPack).

The plugin exposes five routes around a deterministic daily number
generator.  JavaScript strings are modelled as lists of UTF-16 code
units (`List Nat`); JavaScript numbers relevant here (integers and the
finite doubles compared against them) are modelled as rationals, and
32-bit signed integer conversion (`ToInt32`, used by `<<`, `&` and the
`hash & hash` trick in the source) is modelled explicitly on `Int`.
-/

/-- `ToInt32` of JavaScript: reduce an integer modulo `2^32` into the
signed range `[-2^31, 2^31)`.  This is what `hash & hash` and `hash << 5`
perform on their operands in `generateDailyNumber`. -/
def toInt32 (n : Int) : Int :=
  if n % 4294967296 < 2147483648 then n % 4294967296
  else n % 4294967296 - 4294967296

/-- One iteration of the loop in `generateDailyNumber`:
`hash = ((hash << 5) - hash) + char; hash = hash & hash;`.
`hash << 5` converts `hash` to Int32, multiplies by 32 and wraps; the
subtraction and addition are exact double arithmetic (their magnitude is
far below `2^53`); `hash & hash` converts the result back to Int32. -/
def hashStep (hash : Int) (char : Nat) : Int :=
  toInt32 (toInt32 (toInt32 hash * 32) - hash + char)

/-- The full hash loop of `generateDailyNumber`, starting from `hash = 0`. -/
def hashString (dateString : List Nat) : Int :=
  dateString.foldl hashStep 0

/-- JavaScript `%` is the truncated remainder, `Int.tmod`. -/
def jsRem (a b : Int) : Int := Int.tmod a b

/-- `generateDailyNumber` of `src/backend/plugin.js`:
`Math.abs(hash % 100) + 1` after the hash loop.  `Math.abs` on doubles
is exact (no two's-complement overflow), so it is `|·|` on `Int`. -/
def generateDailyNumber (dateString : List Nat) : Int :=
  |jsRem (hashString dateString) 100| + 1

/-- Modelled from the spec: the reference recurrence
`hash = (hash * 31 + charCode) mod 2^32`, interpreted as a signed
two's-complement 32-bit integer. -/
def specHashStep (hash : Int) (char : Nat) : Int :=
  toInt32 (hash * 31 + char)

/-- Modelled from the spec: the reference hash of a date key, folding
`specHashStep` from 0. -/
def specHash (dateKey : List Nat) : Int :=
  dateKey.foldl specHashStep 0

/-- Modelled from the spec: `abs(hash) mod (rangeMax - rangeMin + 1) + rangeMin`
with `rangeMin = 1`, `rangeMax = 100` (absolute value taken in ℤ, which is
the consistent reading the spec asks for at the most negative value). -/
def specDailyValue (dateKey : List Nat) : Int :=
  ((specHash dateKey).natAbs % 100 : Nat) + 1

/-- UTF-16 code units of an ASCII string literal (all date keys in the
claims are ASCII, where scalar values and code units agree). -/
def strCodes (s : String) : List Nat :=
  s.data.map (fun c => c.toNat)

/-! ### JavaScript values and request bodies -/

/-- The JavaScript values that request-body fields range over in this
plugin: `undefined` (an absent field), `null`, booleans, finite numbers
(doubles, modelled as rationals — the handlers do no arithmetic on them,
only comparisons, on which the models agree), `NaN`, and strings. -/
inductive JsVal where
  | undef
  | nullV
  | boolV (b : Bool)
  | num (q : ℚ)
  | nanV
  | str (s : List Nat)
deriving DecidableEq

/-- JavaScript falsiness: `undefined`, `null`, `false`, `0`, `NaN` and
the empty string are falsy, everything else is truthy. -/
def isFalsy : JsVal → Bool
  | .undef => true
  | .nullV => true
  | .boolV b => !b
  | .num q => decide (q = 0)
  | .nanV => true
  | .str s => decide (s = [])

/-- JavaScript truthiness (used by `won ? 1 : 0`). -/
def isTruthy (v : JsVal) : Bool := !isFalsy v

/-- `typeof v === 'number'` (`NaN` has type `number` in JavaScript). -/
def isNumberType : JsVal → Bool
  | .num _ => true
  | .nanV => true
  | _ => false

/-- JavaScript `===` between a body value and an integer
(`NaN === n` is false). -/
def jsEqInt (v : JsVal) (n : Int) : Bool :=
  match v with
  | .num q => decide (q = (n : ℚ))
  | _ => false

/-- JavaScript `<` between a body value and an integer
(false when the left side is `NaN`). -/
def jsLtInt (v : JsVal) (n : Int) : Bool :=
  match v with
  | .num q => decide (q < (n : ℚ))
  | _ => false

/-- `date || today`: the optional string `date` field of a request body,
falling back to `today` when the field is absent or empty (falsy). -/
def dateOr (date : Option (List Nat)) (today : List Nat) : List Nat :=
  match date with
  | none => today
  | some s => if s = [] then today else s

/-! ### `POST /guess` -/

/-- Body of a `POST /guess` request: `{ guess, date }`, with the `date`
field restricted to string-or-absent (the only shapes the claims use). -/
structure GuessReq where
  guess : JsVal
  date : Option (List Nat)

inductive GuessResult where
  | correct
  | higher
  | lower
deriving DecidableEq

/-- Responses of `POST /guess`: the 400 `{ error: 'Invalid guess' }`
response, or the 200 JSON body `{ guess, result, date }`. -/
inductive GuessResp where
  | badRequest
  | ok (guess : JsVal) (result : GuessResult) (date : List Nat)
deriving DecidableEq

/-- HTTP status of a `POST /guess` response. -/
def guessStatus : GuessResp → Nat
  | .badRequest => 400
  | .ok _ _ _ => 200

/-- The `POST /guess` handler, parameterized by the daily-number
generator it calls; the real handler uses `generateDailyNumber`.
Follows the source: reject when `!guess || typeof guess !== 'number'`,
else compare with the secret for `date || today`. -/
def postGuessGen (gen : List Nat → Int) (req : GuessReq) (today : List Nat) :
    GuessResp :=
  if isFalsy req.guess || !isNumberType req.guess then .badRequest
  else
    let targetDate := dateOr req.date today
    let secretNumber := gen targetDate
    let result : GuessResult :=
      if jsEqInt req.guess secretNumber then .correct
      else if jsLtInt req.guess secretNumber then .higher
      else .lower
    .ok req.guess result targetDate

/-- The `POST /guess` handler of the plugin. -/
def postGuess (req : GuessReq) (today : List Nat) : GuessResp :=
  postGuessGen generateDailyNumber req today

/-! ### `GET /daily-challenge` -/

structure NumRange where
  min : Int
  max : Int
deriving DecidableEq

/-- The JSON body `{ date, hint, range: { min, max } }`. -/
structure DailyChallengeResp where
  date : List Nat
  hint : String
  range : NumRange
deriving DecidableEq

/-- The `GET /daily-challenge` handler, parameterized by the generator
used for `const secretNumber = generateDailyNumber(today)`; the response
never uses that value. -/
def getDailyChallengeGen (gen : List Nat → Int) (today : List Nat) :
    DailyChallengeResp :=
  let _secretNumber := gen today
  { date := today
    hint := "The number is between 1 and 100"
    range := { min := 1, max := 100 } }

/-- The `GET /daily-challenge` handler of the plugin. -/
def getDailyChallenge (today : List Nat) : DailyChallengeResp :=
  getDailyChallengeGen generateDailyNumber today

/-! ### `POST /submit-score` and the `daily_number_scores` table -/

/-- A row of `daily_number_scores` (the autoincrement `id` and the
defaulted `created_at` column are not relevant to any claim). -/
structure ScoreRecord where
  userId : Int
  date : List Nat
  attempts : JsVal
  won : Int
deriving DecidableEq

/-- Body of a `POST /submit-score` request: `{ attempts, won, date }`. -/
structure SubmitBody where
  attempts : JsVal
  won : JsVal
  date : Option (List Nat)

inductive SubmitResp where
  | alreadySubmitted
  | success
deriving DecidableEq

/-- HTTP status of a `POST /submit-score` response:
`res.status(400)` for the duplicate error, plain `res.json` (200) else. -/
def submitStatus : SubmitResp → Nat
  | .alreadySubmitted => 400
  | .success => 200

/-- `SELECT id FROM daily_number_scores WHERE user_id = ? AND date = ?`:
does the table hold a record for this user and date? -/
def hasScore (uid : Int) (d : List Nat) (table : List ScoreRecord) : Bool :=
  table.any fun r => decide (r.userId = uid) && decide (r.date = d)

/-- The row inserted by
`INSERT INTO daily_number_scores (user_id, date, attempts, won)` with
bind values `[user.id, today, attempts, won ? 1 : 0]`. -/
def insertedRecord (uid : Int) (today : List Nat) (body : SubmitBody) :
    ScoreRecord :=
  { userId := uid, date := today, attempts := body.attempts,
    won := if isTruthy body.won then 1 else 0 }

/-- The `POST /submit-score` handler: check-then-insert on the isolated
table; returns the response together with the new table state. -/
def postSubmitScore (uid : Int) (body : SubmitBody) (clockToday : List Nat)
    (table : List ScoreRecord) : SubmitResp × List ScoreRecord :=
  let today := dateOr body.date clockToday
  if hasScore uid today table then (.alreadySubmitted, table)
  else (.success, table ++ [insertedRecord uid today body])

/-! ### `GET /leaderboard` -/

/-- The numeric value of an `attempts` cell; non-numeric cells (which
the handler never filters out) are given a junk value, and the
leaderboard theorem restricts itself to tables with numeric attempts. -/
def attVal : JsVal → ℚ
  | .num q => q
  | _ => 0

/-- The comparison realized by `ORDER BY attempts ASC`. -/
def byAttempts (a b : ScoreRecord) : Prop :=
  attVal a.attempts ≤ attVal b.attempts

instance : DecidableRel byAttempts := fun a b =>
  inferInstanceAs (Decidable (attVal a.attempts ≤ attVal b.attempts))

instance : IsTotal ScoreRecord byAttempts :=
  ⟨fun a b => le_total (attVal a.attempts) (attVal b.attempts)⟩

instance : IsTrans ScoreRecord byAttempts :=
  ⟨fun _ _ _ hab hbc => le_trans hab hbc⟩

/-- `SELECT user_id, attempts, won FROM daily_number_scores
WHERE date = ? AND won = 1 ORDER BY attempts ASC LIMIT 10`. -/
def leaderboardRows (today : List Nat) (table : List ScoreRecord) :
    List ScoreRecord :=
  (List.insertionSort byAttempts
    (table.filter fun r => decide (r.date = today) && decide (r.won = 1))).take 10

/-- One element of the `leaderboard` array of the response. -/
structure LeaderboardEntry where
  rank : Nat
  username : List Nat
  attempts : JsVal
deriving DecidableEq

def anonymousUser : List Nat := strCodes "Anonymous"

/-- `usernameMap.get(s.user_id) || 'Anonymous'`. -/
def usernameOr (o : Option (List Nat)) : List Nat :=
  match o with
  | some u => if u = [] then anonymousUser else u
  | none => anonymousUser

/-- `scores.map((s, i) => ({ rank: i + 1, username: ..., attempts:
s.attempts }))`, written with an explicit index accumulator that starts
at `i + 1 = 1`. -/
def rankFrom (um : Int → Option (List Nat)) (i : Nat) :
    List ScoreRecord → List LeaderboardEntry
  | [] => []
  | s :: rest =>
    { rank := i, username := usernameOr (um s.userId), attempts := s.attempts }
      :: rankFrom um (i + 1) rest

/-- The JSON body `{ date, leaderboard }`. -/
structure LeaderboardResp where
  date : List Nat
  leaderboard : List LeaderboardEntry

/-- The `GET /leaderboard` handler; `um` models the read-only
`context.core.getUsernameMap` capability. -/
def getLeaderboard (today : List Nat) (table : List ScoreRecord)
    (um : Int → Option (List Nat)) : LeaderboardResp :=
  { date := today, leaderboard := rankFrom um 1 (leaderboardRows today table) }

/-! ### Arithmetic facts about the embedding -/

theorem toInt32_emod (a : Int) : toInt32 a % 4294967296 = a % 4294967296 := by
  unfold toInt32
  split <;> omega

theorem toInt32_congr {a b : Int} (h : a % 4294967296 = b % 4294967296) :
    toInt32 a = toInt32 b := by
  unfold toInt32
  rw [h]

/-- `((hash << 5) - hash) + char` followed by `hash & hash` computes the
same 32-bit value as the spec recurrence `hash * 31 + char` wrapped. -/
theorem hashStep_eq_specHashStep : hashStep = specHashStep := by
  funext h c
  unfold hashStep specHashStep
  apply toInt32_congr
  have h1 := toInt32_emod h
  have h2 := toInt32_emod (toInt32 h * 32)
  omega

theorem hashString_eq_specHash (s : List Nat) : hashString s = specHash s := by
  unfold hashString specHash
  rw [hashStep_eq_specHashStep]

/-- `|a tmod b| = |a| % |b|`, the fact behind `Math.abs(hash % 100)`. -/
theorem natAbs_tmod (a b : Int) : (Int.tmod a b).natAbs = a.natAbs % b.natAbs := by
  cases a with
  | ofNat m =>
    cases b with
    | ofNat n => rfl
    | negSucc n => rfl
  | negSucc m =>
    cases b with
    | ofNat n => rw [show Int.tmod (Int.negSucc m) (Int.ofNat n)
        = -Int.ofNat ((m + 1) % n) from rfl, Int.natAbs_neg]; rfl
    | negSucc n => rw [show Int.tmod (Int.negSucc m) (Int.negSucc n)
        = -Int.ofNat ((m + 1) % (n + 1)) from rfl, Int.natAbs_neg]; rfl

theorem generateDailyNumber_eq_spec (s : List Nat) :
    generateDailyNumber s = specDailyValue s := by
  unfold generateDailyNumber specDailyValue jsRem
  rw [hashString_eq_specHash, Int.abs_eq_natAbs, natAbs_tmod]
  norm_num

theorem generateDailyNumber_range (s : List Nat) :
    1 ≤ generateDailyNumber s ∧ generateDailyNumber s ≤ 100 := by
  rw [generateDailyNumber_eq_spec]
  unfold specDailyValue
  have h : (specHash s).natAbs % 100 < 100 := Nat.mod_lt _ (by norm_num)
  omega

/-- The response of `POST /guess` to a guess that passes validation
(a nonzero number `q`): the comparison chain against the secret. -/
theorem postGuess_num (q : ℚ) (d : Option (List Nat)) (today : List Nat)
    (hq : q ≠ 0) :
    postGuess ⟨.num q, d⟩ today
      = .ok (.num q)
          (if q = (generateDailyNumber (dateOr d today) : ℚ) then .correct
           else if q < (generateDailyNumber (dateOr d today) : ℚ) then .higher
           else .lower)
          (dateOr d today) := by
  unfold postGuess postGuessGen
  simp [isFalsy, isNumberType, jsEqInt, jsLtInt, hq]

/-! ### Claim theorems -/

/-- C1: for every string input `s` — including the empty string and
inputs that drive the 32-bit hash to its most negative value
`-2^31 = -2147483648`, such as the code-unit string `[2,13,0,9,30,12,2]`
— `generateDailyNumber s` is an integer in the inclusive range
`[1, 100]`. -/
theorem daily_number_in_range :
    (∀ s : List Nat, 1 ≤ generateDailyNumber s ∧ generateDailyNumber s ≤ 100) ∧
    hashString [2, 13, 0, 9, 30, 12, 2] = -2147483648 ∧
    generateDailyNumber [2, 13, 0, 9, 30, 12, 2] = 49 ∧
    generateDailyNumber [] = 1 := by
  refine ⟨generateDailyNumber_range, ?_, ?_, ?_⟩ <;>
    set_option maxRecDepth 4000 in decide

/-- C2: the code's value agrees with the spec's reference definition on
every string: the fold `((hash << 5) - hash) + char` then `hash & hash`
realizes the wrapped recurrence `hash * 31 + charCode mod 2^32` (signed
32-bit), and `Math.abs(hash % 100) + 1` equals `abs(hash) mod 100 + 1`. -/
theorem daily_number_matches_spec :
    (∀ s : List Nat, generateDailyNumber s = specDailyValue s) ∧
    (∀ h : Int, ∀ c : Nat, hashStep h c = specHashStep h c) ∧
    (∀ h : Int, |jsRem h 100| + 1 = ((h.natAbs % 100 : Nat) : Int) + 1) := by
  refine ⟨generateDailyNumber_eq_spec, ?_, ?_⟩
  · intro h c
    rw [hashStep_eq_specHashStep]
  · intro h
    unfold jsRem
    rw [Int.abs_eq_natAbs, natAbs_tmod]
    norm_num

/-- C3: `generateDailyNumber` is deterministic — it is a pure function
of the date key alone, so any two invocations on the same string return
the same integer; in particular the key `"2024-01-01"` always yields
33. -/
theorem daily_number_deterministic :
    (∀ s t : List Nat, s = t → generateDailyNumber s = generateDailyNumber t) ∧
    generateDailyNumber (strCodes "2024-01-01") = 33 := by
  refine ⟨fun s t h => h ▸ rfl, ?_⟩
  set_option maxRecDepth 4000 in decide

/-- Witness for C3 at the concrete key `"2024-01-01"`. -/
theorem daily_number_deterministic_witness :
    generateDailyNumber (strCodes "2024-01-01")
      = generateDailyNumber (strCodes "2024-01-01") ∧
    generateDailyNumber (strCodes "2024-01-01") = 33 :=
  ⟨daily_number_deterministic.1 _ _ rfl, daily_number_deterministic.2⟩

/-- C4: for every guess that passes the handler's validation (a nonzero
number `q`) and every date key, `POST /guess` answers `correct` iff the
guess equals the day's secret number, `higher` iff it is strictly below
it, `lower` iff it is strictly above it, echoing the guess and the date
used. -/
theorem guess_route_correct (q : ℚ) (d : Option (List Nat)) (today : List Nat)
    (hq : q ≠ 0) :
    (postGuess ⟨.num q, d⟩ today
        = .ok (.num q) .correct (dateOr d today)
      ↔ q = (generateDailyNumber (dateOr d today) : ℚ)) ∧
    (postGuess ⟨.num q, d⟩ today
        = .ok (.num q) .higher (dateOr d today)
      ↔ q < (generateDailyNumber (dateOr d today) : ℚ)) ∧
    (postGuess ⟨.num q, d⟩ today
        = .ok (.num q) .lower (dateOr d today)
      ↔ (generateDailyNumber (dateOr d today) : ℚ) < q) := by
  rw [postGuess_num q d today hq]
  by_cases h1 : q = (generateDailyNumber (dateOr d today) : ℚ)
  · simp [h1]
  · by_cases h2 : q < (generateDailyNumber (dateOr d today) : ℚ)
    · have h3 : ¬((generateDailyNumber (dateOr d today) : ℚ) < q) := asymm h2
      simp [h1, h2, h3]
    · have h3 : (generateDailyNumber (dateOr d today) : ℚ) < q :=
        lt_of_le_of_ne (not_lt.mp h2) (Ne.symm h1)
      simp [h1, h2, h3]

/-- Witness for C4: the guess 5 against the key `"2024-01-01"` (whose
secret number is 33) is a valid guess and answers `higher` exactly
because 5 is below the secret. -/
theorem guess_route_correct_witness :
    (5 : ℚ) ≠ 0 ∧
    (postGuess ⟨.num 5, none⟩ (strCodes "2024-01-01")
        = .ok (.num 5) .higher (dateOr none (strCodes "2024-01-01"))
      ↔ (5 : ℚ) < (generateDailyNumber (dateOr none (strCodes "2024-01-01")) : ℚ)) :=
  ⟨by norm_num,
   (guess_route_correct 5 none (strCodes "2024-01-01") (by norm_num)).2.1⟩

/-- C5: the `GET /daily-challenge` response is independent of the daily
secret: hint and range agree between any two dates, the hint is the
constant string and the range is always `{min: 1, max: 100}`, and the
whole response is unchanged when the secret generator is replaced by any
other function (so no field is derived from `secretValue`). -/
theorem daily_challenge_no_leak :
    (∀ d1 d2 : List Nat,
      (getDailyChallenge d1).hint = (getDailyChallenge d2).hint ∧
      (getDailyChallenge d1).range = (getDailyChallenge d2).range) ∧
    (∀ d : List Nat,
      (getDailyChallenge d).hint = "The number is between 1 and 100" ∧
      (getDailyChallenge d).range = ⟨1, 100⟩ ∧
      (getDailyChallenge d).date = d) ∧
    (∀ gen : List Nat → Int, ∀ d : List Nat,
      getDailyChallengeGen gen d = getDailyChallenge d) :=
  ⟨fun _ _ => ⟨rfl, rfl⟩, fun _ => ⟨rfl, rfl, rfl⟩, fun _ _ => rfl⟩

/-- C8 (amended): the `POST /guess` handler rejects with 400 exactly
when the `guess` field is falsy (missing, `0`, `NaN`, `false`, `null`,
the empty string) or not of number type; this holds for an arbitrary
generator in place of `generateDailyNumber`, so a rejected request never
depends on the generator's value. -/
theorem guess_validation_amended (gen : List Nat → Int) (req : GuessReq)
    (today : List Nat) :
    (postGuessGen gen req today = .badRequest ↔
      (isFalsy req.guess || !isNumberType req.guess) = true) ∧
    (postGuess req today = .badRequest ↔
      (isFalsy req.guess || !isNumberType req.guess) = true) := by
  have key : ∀ g : List Nat → Int, postGuessGen g req today = .badRequest ↔
      (isFalsy req.guess || !isNumberType req.guess) = true := by
    intro g
    unfold postGuessGen
    by_cases h : (isFalsy req.guess || !isNumberType req.guess) = true
    · simp [h]
    · simp [h]
  exact ⟨key gen, key generateDailyNumber⟩

/-- C8 counterexample: the claim "missing or non-integer is rejected,
every integer passes" is false on the code.  The integer guess `0` is
falsy and is rejected with 400, while the non-integer number `3/2`
passes validation and gets a normal comparison response. -/
theorem guess_validation_counterexample :
    postGuess ⟨.num 0, none⟩ (strCodes "2024-01-01") = .badRequest ∧
    postGuess ⟨.num (3 / 2), none⟩ (strCodes "2024-01-01")
      = .ok (.num (3 / 2)) .higher (strCodes "2024-01-01") := by
  have h33 : generateDailyNumber (strCodes "2024-01-01") = 33 := by
    set_option maxRecDepth 4000 in decide
  constructor
  · simp [postGuess, postGuessGen, isFalsy]
  · rw [postGuess_num (3 / 2) none (strCodes "2024-01-01") (by norm_num)]
    simp only [dateOr, h33]
    norm_num

/-- The `SELECT ... WHERE user_id = ? AND date = ?` check succeeds
exactly when a record for the pair is in the table. -/
theorem hasScore_iff (uid : Int) (d : List Nat) (table : List ScoreRecord) :
    hasScore uid d table = true ↔ ∃ r ∈ table, r.userId = uid ∧ r.date = d := by
  unfold hasScore
  simp [List.any_eq_true]

/-- C6: `POST /submit-score` is first-writer-wins.  If a record for
`(user, date)` is already present, the request is rejected with 400 and
the table is left unchanged; if none is present, the response is a
success and exactly the one new record is appended. -/
theorem submit_score_first_writer_wins (uid : Int) (body : SubmitBody)
    (clockToday : List Nat) (table : List ScoreRecord) :
    ((∃ r ∈ table, r.userId = uid ∧ r.date = dateOr body.date clockToday) →
      postSubmitScore uid body clockToday table = (.alreadySubmitted, table) ∧
      submitStatus (postSubmitScore uid body clockToday table).1 = 400) ∧
    ((¬ ∃ r ∈ table, r.userId = uid ∧ r.date = dateOr body.date clockToday) →
      postSubmitScore uid body clockToday table
        = (.success,
            table ++ [insertedRecord uid (dateOr body.date clockToday) body])) := by
  constructor
  · intro hex
    have h : hasScore uid (dateOr body.date clockToday) table = true :=
      (hasScore_iff uid (dateOr body.date clockToday) table).mpr hex
    unfold postSubmitScore
    simp [h, submitStatus]
  · intro hnex
    have h : hasScore uid (dateOr body.date clockToday) table = false := by
      cases hb : hasScore uid (dateOr body.date clockToday) table
      · rfl
      · exact absurd ((hasScore_iff uid (dateOr body.date clockToday) table).mp hb)
          hnex
    unfold postSubmitScore
    simp [h]

/-- Witness for C6: with one record for user 1 on `"2024-01-01"` in the
table, a second submission for that pair is rejected with 400 and the
table keeps only the first record; against the empty table the same
submission succeeds and appends exactly one record. -/
theorem submit_score_first_writer_wins_witness :
    (postSubmitScore 1 ⟨.num 3, .boolV true, none⟩ (strCodes "2024-01-01")
        [⟨1, strCodes "2024-01-01", .num 3, 1⟩]
      = (.alreadySubmitted, [⟨1, strCodes "2024-01-01", .num 3, 1⟩]) ∧
      submitStatus (postSubmitScore 1 ⟨.num 3, .boolV true, none⟩
        (strCodes "2024-01-01") [⟨1, strCodes "2024-01-01", .num 3, 1⟩]).1
        = 400) ∧
    postSubmitScore 1 ⟨.num 3, .boolV true, none⟩ (strCodes "2024-01-01") []
      = (.success,
          [] ++ [insertedRecord 1 (dateOr none (strCodes "2024-01-01"))
            ⟨.num 3, .boolV true, none⟩]) :=
  ⟨(submit_score_first_writer_wins 1 ⟨.num 3, .boolV true, none⟩
      (strCodes "2024-01-01") [⟨1, strCodes "2024-01-01", .num 3, 1⟩]).1
      ⟨⟨1, strCodes "2024-01-01", .num 3, 1⟩, by simp, rfl, rfl⟩,
   (submit_score_first_writer_wins 1 ⟨.num 3, .boolV true, none⟩
      (strCodes "2024-01-01") []).2 (by simp)⟩

/-- C10: `POST /submit-score` validates nothing.  For any authenticated
request whose `(user, date)` pair has no record yet, whatever JavaScript
value the `attempts` field holds — missing, negative, non-numeric — is
persisted as-is, and `won` is stored as 1 when truthy and 0 otherwise. -/
theorem submit_score_no_validation (uid : Int) (attempts won : JsVal)
    (date : Option (List Nat)) (clockToday : List Nat)
    (table : List ScoreRecord)
    (h : hasScore uid (dateOr date clockToday) table = false) :
    (postSubmitScore uid ⟨attempts, won, date⟩ clockToday table).1
      = .success ∧
    (postSubmitScore uid ⟨attempts, won, date⟩ clockToday table).2
      = table ++ [{ userId := uid, date := dateOr date clockToday,
                    attempts := attempts,
                    won := if isTruthy won then 1 else 0 }] := by
  unfold postSubmitScore
  simp [h, insertedRecord]

/-- Witness for C10: a missing `attempts` field (`undefined`) and the
truthy non-boolean `won` value `2` are stored as-is (with `won` folded
to 1) for user 7 on the empty table. -/
theorem submit_score_no_validation_witness :
    hasScore 7 (dateOr none (strCodes "2024-01-01")) [] = false ∧
    ((postSubmitScore 7 ⟨.undef, .num 2, none⟩ (strCodes "2024-01-01") []).1
        = .success ∧
     (postSubmitScore 7 ⟨.undef, .num 2, none⟩ (strCodes "2024-01-01") []).2
        = [] ++ [{ userId := 7, date := dateOr none (strCodes "2024-01-01"),
                   attempts := .undef,
                   won := if isTruthy (.num 2) then 1 else 0 }]) :=
  ⟨rfl, submit_score_no_validation 7 .undef (.num 2) none
    (strCodes "2024-01-01") [] rfl⟩

/-- The rank fields produced by the response-building `map` are the
consecutive integers starting at the initial index. -/
theorem rankFrom_map_rank (um : Int → Option (List Nat)) :
    ∀ (l : List ScoreRecord) (i : Nat),
      (rankFrom um i l).map (fun e => e.rank) = List.range' i l.length
  | [], _ => rfl
  | s :: rest, i => by
    simp [rankFrom, List.range', rankFrom_map_rank um rest (i + 1)]

/-- C7: for every table state (with numeric `attempts` cells, the only
ones `ORDER BY attempts` is faithfully modelled on), the leaderboard
rows contain only records of the queried date with `won = 1`, hold at
most 10 entries whose attempts values are numeric and ascending, and the
response's rank fields are exactly `1, 2, ..., n` with no gaps. -/
theorem leaderboard_spec (today : List Nat) (table : List ScoreRecord)
    (um : Int → Option (List Nat))
    (hnum : ∀ r ∈ table, ∃ q : ℚ, r.attempts = JsVal.num q) :
    (∀ r ∈ leaderboardRows today table, r.date = today ∧ r.won = 1) ∧
    (leaderboardRows today table).length ≤ 10 ∧
    (∃ qs : List ℚ, (leaderboardRows today table).map (fun r => r.attempts)
        = qs.map JsVal.num ∧ qs.Sorted (· ≤ ·)) ∧
    ((getLeaderboard today table um).leaderboard.map (fun e => e.rank)
      = List.range' 1 (leaderboardRows today table).length) := by
  have hsub : leaderboardRows today table ⊆
      (table.filter fun r => decide (r.date = today) && decide (r.won = 1)) := by
    intro r hr
    have h1 : r ∈ List.insertionSort byAttempts
        (table.filter fun r => decide (r.date = today) && decide (r.won = 1)) :=
      List.take_subset 10 _ hr
    exact (List.mem_insertionSort byAttempts).mp h1
  refine ⟨?_, ?_, ?_, ?_⟩
  · intro r hr
    have h2 := List.mem_filter.mp (hsub hr)
    have h3 := h2.2
    simp only [Bool.and_eq_true, decide_eq_true_eq] at h3
    exact h3
  · exact List.length_take_le 10 _
  · refine ⟨(leaderboardRows today table).map (fun r => attVal r.attempts),
      ?_, ?_⟩
    · rw [List.map_map]
      refine List.map_congr_left ?_
      intro r hr
      obtain ⟨q, hq⟩ := hnum r (List.mem_of_mem_filter (hsub hr))
      simp [Function.comp, hq, attVal]
    · have hs : (List.insertionSort byAttempts
          (table.filter fun r => decide (r.date = today) && decide (r.won = 1))
          ).Pairwise byAttempts :=
        List.sorted_insertionSort byAttempts _
      have ht : (leaderboardRows today table).Pairwise byAttempts :=
        hs.sublist (List.take_sublist 10 _)
      exact (List.pairwise_map).mpr ht
  · exact rankFrom_map_rank um (leaderboardRows today table) 1

/-- Witness for C7: a four-record table (two winners today, one loss
today, one winner yesterday); all attempts are numeric. -/
theorem leaderboard_spec_witness :
    (∀ r ∈ leaderboardRows (strCodes "2024-01-01")
        [⟨1, strCodes "2024-01-01", .num 3, 1⟩,
         ⟨2, strCodes "2024-01-01", .num 2, 1⟩,
         ⟨3, strCodes "2024-01-01", .num 5, 0⟩,
         ⟨4, strCodes "2024-01-02", .num 1, 1⟩],
      r.date = strCodes "2024-01-01" ∧ r.won = 1) ∧
    (leaderboardRows (strCodes "2024-01-01")
        [⟨1, strCodes "2024-01-01", .num 3, 1⟩,
         ⟨2, strCodes "2024-01-01", .num 2, 1⟩,
         ⟨3, strCodes "2024-01-01", .num 5, 0⟩,
         ⟨4, strCodes "2024-01-02", .num 1, 1⟩]).length ≤ 10 ∧
    (∃ qs : List ℚ, (leaderboardRows (strCodes "2024-01-01")
        [⟨1, strCodes "2024-01-01", .num 3, 1⟩,
         ⟨2, strCodes "2024-01-01", .num 2, 1⟩,
         ⟨3, strCodes "2024-01-01", .num 5, 0⟩,
         ⟨4, strCodes "2024-01-02", .num 1, 1⟩]).map (fun r => r.attempts)
        = qs.map JsVal.num ∧ qs.Sorted (· ≤ ·)) ∧
    ((getLeaderboard (strCodes "2024-01-01")
        [⟨1, strCodes "2024-01-01", .num 3, 1⟩,
         ⟨2, strCodes "2024-01-01", .num 2, 1⟩,
         ⟨3, strCodes "2024-01-01", .num 5, 0⟩,
         ⟨4, strCodes "2024-01-02", .num 1, 1⟩] (fun _ => none)).leaderboard.map
          (fun e => e.rank)
      = List.range' 1 (leaderboardRows (strCodes "2024-01-01")
        [⟨1, strCodes "2024-01-01", .num 3, 1⟩,
         ⟨2, strCodes "2024-01-01", .num 2, 1⟩,
         ⟨3, strCodes "2024-01-01", .num 5, 0⟩,
         ⟨4, strCodes "2024-01-02", .num 1, 1⟩]).length) :=
  leaderboard_spec (strCodes "2024-01-01") _ (fun _ => none)
    (by intro r hr; fin_cases hr <;> exact ⟨_, rfl⟩)

/-- C9 counterexample: the generator does not fail fast.  Called with
the empty string it silently returns the default value 1 (the hash of
the empty loop is 0), and called with the malformed key `"not-a-date"`
it silently returns 89; there is no rejecting path in the code. -/
theorem generator_no_fail_counterexample :
    generateDailyNumber [] = 1 ∧
    generateDailyNumber (strCodes "not-a-date") = 89 := by
  constructor <;> set_option maxRecDepth 4000 in decide

/-- C9 (amended): the generator is total and never rejects — the empty
string yields the default value 1 and every string (malformed keys
included) yields a value in `[1, 100]`. -/
theorem generator_total_amended :
    generateDailyNumber [] = 1 ∧
    (∀ s : List Nat, 1 ≤ generateDailyNumber s ∧ generateDailyNumber s ≤ 100) :=
  ⟨by decide, generateDailyNumber_range⟩
